import Mathlib

/-!
Shallow embedding of the takeaway file-sharing server (src/server.js).
Instants are modelled as integers (milliseconds); JS string truthiness is
modelled explicitly; fallible handlers return Option/Except values.
-/

namespace Takeaway

/-- Event configuration record (server.js lines 16-23).  `shareableLink` is
`none` for the JS `null`. -/
structure EventConfig where
  id : String
  name : String
  startDate : Int
  endDate : Int
  isActive : Bool
  shareableLink : Option String
deriving DecidableEq, Repr

/-- A JSON error response: HTTP status, `error` message, and the optional
`eventStatus` / boundary-date fields attached by the event-window denials. -/
structure ApiError where
  status : Nat
  error : String
  eventStatus : Option String
  startDate : Option Int
  endDate : Option Int
deriving DecidableEq, Repr

/-- An error response carrying only a status and a message. -/
def mkErr (status : Nat) (msg : String) : ApiError :=
  ⟨status, msg, none, none, none⟩

/-- JS truthiness of an optional string value: `null`/absent and the empty
string are falsy. -/
def truthy : Option String → Bool
  | none => false
  | some s => s ≠ ""

/-- Middleware `checkEventAccess` (server.js lines 67-96): `none` means the
request passes through (`next()`); `some e` is the denial response. -/
def checkEventAccess (cfg : EventConfig) (now : Int) : Option ApiError :=
  if cfg.isActive = false then
    some ⟨403, "Event is not active", some "inactive", none, none⟩
  else if now < cfg.startDate then
    some ⟨403, "Event has not started yet", some "not-started", some cfg.startDate, none⟩
  else if now > cfg.endDate then
    some ⟨403, "Event has ended", some "ended", none, some cfg.endDate⟩
  else
    none

/-- Middleware `validateShareableLink` (server.js lines 98-138).  The token
check is followed by a literal duplicate of the event-timing checks. -/
def validateShareableLink (cfg : EventConfig) (now : Int) (linkToken : Option String) :
    Option ApiError :=
  if truthy linkToken = false then
    some (mkErr 400 "Shareable link token required")
  else if truthy cfg.shareableLink = false ∨ cfg.shareableLink ≠ linkToken then
    some (mkErr 403 "Invalid or expired shareable link")
  else if cfg.isActive = false then
    some ⟨403, "Event is not active", some "inactive", none, none⟩
  else if now < cfg.startDate then
    some ⟨403, "Event has not started yet", some "not-started", some cfg.startDate, none⟩
  else if now > cfg.endDate then
    some ⟨403, "Event has ended", some "ended", none, some cfg.endDate⟩
  else
    none

/-- The inline middleware shared by GET /api/files, GET /api/files/:filename,
GET /api/files/:filename/info and POST /api/files/bulk-download
(server.js lines 384-391 etc.): if `req.query.link` is truthy the request is
gated by `validateShareableLink`, otherwise by `checkEventAccess`. -/
def readGate (cfg : EventConfig) (now : Int) (link : Option String) : Option ApiError :=
  if truthy link then validateShareableLink cfg now link
  else checkEventAccess cfg now

/-- The `status` string computed by GET /api/event/status
(server.js lines 185-197). -/
def getStatus (cfg : EventConfig) (now : Int) : String :=
  if cfg.isActive = false then "inactive"
  else if now < cfg.startDate then "not-started"
  else if now > cfg.endDate then "ended"
  else "active"

/-- The metadata sidecar record, with the fields the read handlers consume:
`originalName` and `mimetype` for serving, `uploadDate` for sorting. -/
structure FileRecord where
  originalName : String
  mimetype : String
  uploadDate : Int
deriving DecidableEq, Repr

/-- The forEach loop of the GET /api/files handler (server.js lines 397-403):
each directory sidecar entry is modelled by its JSON parse result (`none` =
`JSON.parse` throws).  A throw aborts the whole loop. -/
def collectSidecars : List (Option FileRecord) → Except Unit (List FileRecord)
  | [] => .ok []
  | none :: _ => .error ()
  | some r :: rest => (collectSidecars rest).map (r :: ·)

/-- Insert a record into a list sorted by `uploadDate` descending. -/
def insertByDateDesc (r : FileRecord) : List FileRecord → List FileRecord
  | [] => [r]
  | x :: xs => if x.uploadDate ≤ r.uploadDate then r :: x :: xs
               else x :: insertByDateDesc r xs

/-- The sort step of the GET /api/files handler (server.js line 406): sort by
`uploadDate`, newest first. -/
def sortByDateDesc : List FileRecord → List FileRecord
  | [] => []
  | x :: xs => insertByDateDesc x (sortByDateDesc xs)

/-- The GET /api/files handler body (server.js lines 392-413): read every
sidecar, parse it, sort by upload date descending; any exception (including a
JSON parse failure inside the loop) is caught by the surrounding try/catch and
converted to a 500 response. -/
def listFilesHandler (sidecars : List (Option FileRecord)) :
    Except ApiError (List FileRecord) :=
  match collectSidecars sidecars with
  | .error () => .error (mkErr 500 "Failed to fetch files")
  | .ok l => .ok (sortByDateDesc l)

/-- Fields of a POST /api/event/configure request body; `none` models an
absent or falsy field (the handler guards each with JS truthiness, and
`isActive` with a typeof check). -/
structure ConfigureRequest where
  name : Option String
  startDate : Option Int
  endDate : Option Int
  isActive : Option Bool
deriving DecidableEq, Repr

/-- The field-application prefix of the configure handler
(server.js lines 277-280): each present field is written into the in-memory
`currentEvent` before any validation runs. -/
def applyFields (cfg : EventConfig) (r : ConfigureRequest) : EventConfig :=
  let c1 := match r.name with | some n => { cfg with name := n } | none => cfg
  let c2 := match r.startDate with | some s => { c1 with startDate := s } | none => c1
  let c3 := match r.endDate with | some e => { c2 with endDate := e } | none => c2
  match r.isActive with | some b => { c3 with isActive := b } | none => c3

/-- Server state relevant to configuration: the in-memory `currentEvent`
(read by every access check) and the persisted event-config.json record. -/
structure ServerState where
  memConfig : EventConfig
  persisted : EventConfig
deriving DecidableEq, Repr

/-- POST /api/event/configure (server.js lines 273-299): mutate the in-memory
config field by field, then validate `startDate < endDate`; on violation
respond 400 WITHOUT persisting (but the in-memory mutation has already
happened); otherwise persist and return the new config. -/
def configure (st : ServerState) (r : ConfigureRequest) :
    ServerState × Except ApiError EventConfig :=
  let m := applyFields st.memConfig r
  if m.endDate ≤ m.startDate then
    ({ st with memConfig := m }, .error (mkErr 400 "Start date must be before end date"))
  else
    (⟨m, m⟩, .ok m)

/-- The speaker principal record (server.js lines 36-43). -/
structure Speaker where
  id : String
  username : String
  password : String
  name : String
deriving DecidableEq, Repr

/-- The hardcoded speaker list (server.js lines 36-43); the password field
holds the bcrypt hash of the real password. -/
def SPEAKERS : List Speaker :=
  [⟨"speaker1", "speaker", "$2b$10$8K1p/a0drtIzwqh4Nq8.6.tgdXvKDqRr8p8VGy9Rvx8rQqGhU8jW2",
    "Event Speaker"⟩]

/-- Outcome of POST /api/auth/login. -/
inductive LoginResult where
  | failure (e : ApiError)
  | success (id username name : String)
deriving DecidableEq, Repr

/-- POST /api/auth/login (server.js lines 301-336), with `bcrypt.compare`
abstracted as the `verify` parameter (password, storedHash) → Bool.  Missing
or falsy fields give 400; a lookup miss and a hash mismatch both give a 401
with the same message. -/
def login (verify : String → String → Bool) (username password : String) : LoginResult :=
  if username = "" ∨ password = "" then
    .failure (mkErr 400 "Username and password required")
  else
    match SPEAKERS.find? (fun s => s.username == username) with
    | none => .failure (mkErr 401 "Invalid credentials")
    | some sp =>
      if verify password sp.password = false then
        .failure (mkErr 401 "Invalid credentials")
      else
        .success sp.id sp.username sp.name

/-- JS `hay.includes(needle)` on the character lists of two strings. -/
def startsWithList : List Char → List Char → Bool
  | [], _ => true
  | _ :: _, [] => false
  | a :: as, b :: bs => a = b && startsWithList as bs

/-- Substring occurrence check used to model `String.prototype.includes`. -/
def hasSub (hay needle : List Char) : Bool :=
  match hay with
  | [] => needle.isEmpty
  | _ :: t => startsWithList needle hay || hasSub t needle

/-- `filename.includes(sub)` from JS. -/
def jsIncludes (s sub : String) : Bool := hasSub s.toList sub.toList

/-- `s.startsWith(p)` from JS. -/
def jsStartsWith (s p : String) : Bool := startsWithList p.toList s.toList

/-- The filename safety guard used by every filename-accepting handler
(server.js lines 431, 543, 587): true when the name must be rejected —
falsy (empty) or containing "..", "/" or "\\". -/
def filenameUnsafe (s : String) : Bool :=
  s = "" || jsIncludes s ".." || jsIncludes s "/" || jsIncludes s "\\"

/-- The first invalid filename found by the validation loop of the
bulk-download handler (server.js lines 586-590). -/
def firstUnsafe (l : List String) : Option String := l.find? filenameUnsafe

/-- POST /api/files/bulk-download handler body (server.js lines 577-609):
validate the array and every name, then map each filename to a download URL.
No storage state is consulted at all. -/
def bulkDownload (link : Option String) (filenames : List String) :
    Except ApiError (List (String × String)) :=
  if filenames.isEmpty then
    .error (mkErr 400 "Invalid filenames array")
  else
    match firstUnsafe filenames with
    | some f => .error (mkErr 400 ("Invalid filename: " ++ f))
    | none =>
      let linkParam := if truthy link then "&link=" ++ link.getD "" else ""
      .ok (filenames.map fun f => (f, "/api/files/" ++ f ++ "?download=true" ++ linkParam))

/-- Character-list map to lower case, modelling `ext.toLowerCase()`. -/
def jsToLower (s : String) : String := String.mk (s.toList.map Char.toLower)

/-- `path.extname(filename)` for names without path separators: the suffix
from the last dot, or "" when there is no dot or the only dot is the leading
character. -/
def extname (s : String) : String :=
  let l := s.toList
  let r := l.reverse
  let j := r.findIdx (· == '.')
  if j = r.length then ""
  else if l.length - 1 - j = 0 then ""
  else String.mk (l.drop (l.length - 1 - j))

/-- The extension → content-type table of the file-serving handler
(server.js lines 461-469). -/
def mimeTypes : List (String × String) :=
  [(".pdf", "application/pdf"),
   (".ppt", "application/vnd.ms-powerpoint"),
   (".pptx", "application/vnd.openxmlformats-officedocument.presentationml.presentation"),
   (".mp4", "video/mp4"),
   (".avi", "video/x-msvideo"),
   (".mov", "video/quicktime"),
   (".wmv", "video/x-ms-wmv")]

/-- Association-list lookup by string key. -/
def lookupAssoc (l : List (String × α)) (k : String) : Option α :=
  (l.find? (fun p => p.1 == k)).map (·.2)

/-- Content-type resolution (server.js lines 457-475): extension table first,
then the truthy sidecar mimetype, then the generic binary type. -/
def resolveContentType (filename : String) (metadata : Option FileRecord) : String :=
  match lookupAssoc mimeTypes (jsToLower (extname filename)) with
  | some t => t
  | none =>
    match metadata with
    | some m => if m.mimetype ≠ "" then m.mimetype else "application/octet-stream"
    | none => "application/octet-stream"

/-- The storage directory state seen by the read handlers: binary payloads
(byte lists) keyed by storage name, and sidecars keyed by their file name
(the value is the JSON parse result, `none` when parsing throws). -/
structure Storage where
  binaries : List (String × List Nat)
  sidecars : List (String × Option FileRecord)

/-- The metadata value the serving handler ends up with
(server.js lines 448-455): `null` when the sidecar is absent or fails to
parse. -/
def metadataOf (st : Storage) (filename : String) : Option FileRecord :=
  (lookupAssoc st.sidecars (filename ++ ".json")).join

/-- `originalName` used for the disposition header (server.js line 478). -/
def originalNameFor (metadata : Option FileRecord) (filename : String) : String :=
  match metadata with
  | some m => m.originalName
  | none => filename

/-- The Content-Disposition value (server.js lines 479-491). -/
def dispositionFor (download : Bool) (contentType originalName : String) : String :=
  if download then "attachment; filename=\"" ++ originalName ++ "\""
  else if jsStartsWith contentType "video/" || contentType == "application/pdf" then
    "inline; filename=\"" ++ originalName ++ "\""
  else "attachment; filename=\"" ++ originalName ++ "\""

/-- A parsed `bytes=start-end` range header (server.js lines 501-503):
`endPart = none` when the end part is absent or empty. -/
structure RangeHeader where
  start : Nat
  endPart : Option Nat
deriving DecidableEq, Repr

/-- A filesystem operation performed by a handler. -/
inductive FsAccess where
  | existsSync (p : String)
  | statSync (p : String)
  | readFileSync (p : String)
  | createReadStream (p : String) (start finish : Nat)
  | sendFile (p : String)
deriving DecidableEq, Repr

/-- Outcome of GET /api/files/:filename. -/
inductive ServeOutcome where
  | clientError (e : ApiError)
  | ranged (contentType disposition : String) (start finish total : Nat)
      (contentLength : Int) (bytes : List Nat)
  | whole (contentType disposition : String) (contentLength : Nat) (path : String)
deriving DecidableEq, Repr

/-- The filesystem touches of the happy path up to header computation:
existsSync + statSync on the binary, then the sidecar probe (and read when it
is present). -/
def serveLog (filename : String) (mdPresent : Bool) : List FsAccess :=
  [.existsSync ("uploads/" ++ filename), .statSync ("uploads/" ++ filename)] ++
  (if mdPresent then
    [.existsSync ("uploads/" ++ filename ++ ".json"),
     .readFileSync ("uploads/" ++ filename ++ ".json")]
   else [.existsSync ("uploads/" ++ filename ++ ".json")])

/-- GET /api/files/:filename handler (server.js lines 426-525): safety guard,
existence check, metadata, content-type and disposition resolution, then
video range handling (416 when start or end reaches the size, else a 206
slice) or whole-file send.  The second component logs every filesystem
operation in order. -/
def serveFile (st : Storage) (filename : String) (download : Bool)
    (range : Option RangeHeader) : ServeOutcome × List FsAccess :=
  if filenameUnsafe filename then
    (.clientError (mkErr 400 "Invalid filename"), [])
  else
    match lookupAssoc st.binaries filename with
    | none => (.clientError (mkErr 404 "File not found"),
               [.existsSync ("uploads/" ++ filename)])
    | some content =>
      let fileSize := content.length
      let metadata := metadataOf st filename
      let log0 := serveLog filename (lookupAssoc st.sidecars (filename ++ ".json")).isSome
      let contentType := resolveContentType filename metadata
      let disp := dispositionFor download contentType (originalNameFor metadata filename)
      match range with
      | some rh =>
        if jsStartsWith contentType "video/" then
          let start := rh.start
          let finish := rh.endPart.getD (fileSize - 1)
          if fileSize ≤ start ∨ fileSize ≤ finish then
            (.clientError (mkErr 416 "Range not satisfiable"), log0)
          else
            (.ranged contentType disp start finish fileSize
               ((finish : Int) - (start : Int) + 1)
               ((content.drop start).take (finish + 1 - start)),
             log0 ++ [.createReadStream ("uploads/" ++ filename) start finish])
        else
          (.whole contentType disp fileSize ("uploads/" ++ filename),
           log0 ++ [.sendFile ("uploads/" ++ filename)])
      | none =>
        (.whole contentType disp fileSize ("uploads/" ++ filename),
         log0 ++ [.sendFile ("uploads/" ++ filename)])

/-- Outcome of GET /api/files/:filename/info. -/
inductive InfoOutcome where
  | failure (e : ApiError)
  | ok (r : FileRecord)
deriving DecidableEq, Repr

/-- GET /api/files/:filename/info handler (server.js lines 538-564): safety
guard, 404 on missing binary or missing sidecar, 500 when the sidecar fails
to parse (the exception is caught by the surrounding try/catch), otherwise
the parsed record. -/
def fileInfo (st : Storage) (filename : String) : InfoOutcome × List FsAccess :=
  if filenameUnsafe filename then
    (.failure (mkErr 400 "Invalid filename"), [])
  else
    match lookupAssoc st.binaries filename with
    | none => (.failure (mkErr 404 "File not found"),
               [.existsSync ("uploads/" ++ filename)])
    | some _ =>
      match lookupAssoc st.sidecars (filename ++ ".json") with
      | none => (.failure (mkErr 404 "File metadata not found"),
                 [.existsSync ("uploads/" ++ filename),
                  .existsSync ("uploads/" ++ filename ++ ".json")])
      | some none => (.failure (mkErr 500 "Failed to fetch file info"),
                 [.existsSync ("uploads/" ++ filename),
                  .existsSync ("uploads/" ++ filename ++ ".json"),
                  .readFileSync ("uploads/" ++ filename ++ ".json")])
      | some (some m) => (.ok m,
                 [.existsSync ("uploads/" ++ filename),
                  .existsSync ("uploads/" ++ filename ++ ".json"),
                  .readFileSync ("uploads/" ++ filename ++ ".json")])

/-- The upload fileFilter allow-list (server.js lines 165-173). -/
def allowedTypes : List String :=
  ["application/pdf",
   "application/vnd.ms-powerpoint",
   "application/vnd.openxmlformats-officedocument.presentationml.presentation",
   "video/mp4",
   "video/avi",
   "video/mov",
   "video/wmv"]

/-- The multer fileFilter (server.js lines 163-180): accept allow-listed
types, otherwise pass an Error with this message to the callback. -/
def fileFilter (mimetype : String) : Except String Unit :=
  match allowedTypes.contains mimetype with
  | true => .ok ()
  | false => .error "Invalid file type. Only PDF, PPT, and video files are allowed."

/-- An error reaching the error-handling middleware: either a MulterError
with code LIMIT_FILE_SIZE, or a plain Error carrying a message. -/
inductive UploadError where
  | multerSizeLimit
  | plain (msg : String)
deriving DecidableEq, Repr

/-- The error-handling middleware (server.js lines 612-621): only the multer
size-limit error is mapped to 400; every other error (including the plain
Error produced by the fileFilter) falls through to the generic 500 branch
with its own message. -/
def errorMiddleware : UploadError → ApiError
  | .multerSizeLimit => mkErr 400 "File too large. Maximum size is 50MB."
  | .plain msg => mkErr 500 msg

/-- Modelled from the spec: the multer disk-storage pipeline ordering (the
multer library itself is not under src/) — the fileFilter runs before any
byte is written to storage, a fileFilter rejection propagates its Error to
the error-handling middleware, and a file exceeding the 50MB limit surfaces
as a MulterError with code LIMIT_FILE_SIZE.  The fileFilter predicate and
the middleware responses are embedded from src/server.js lines 158-181 and
612-621.  Returns the storage contents after the request and the error
response, if any. -/
def uploadPipeline (mimetype : String) (size : Nat) (stored : List String)
    (storageName : String) : List String × Option ApiError :=
  match fileFilter mimetype with
  | .error msg => (stored, some (errorMiddleware (.plain msg)))
  | .ok () =>
    if 50 * 1024 * 1024 < size then (stored, some (errorMiddleware .multerSizeLimit))
    else (stored ++ [storageName], none)

/-- A sample active event configuration with window [0, 100]. -/
def cfgActive : EventConfig :=
  ⟨"default-event", "Default Event", 0, 100, true, none⟩

/-- A sample ended event configuration (window [0, 100]) holding a shareable
link token. -/
def cfgEnded : EventConfig :=
  ⟨"default-event", "Default Event", 0, 100, true, some "tok123"⟩

end Takeaway

namespace Takeaway

/-- C1: once the supplied link token matches the stored shareable link, the
timing decision of `validateShareableLink` (and hence of the /api/files gate)
is exactly the decision of `checkEventAccess`: same denial reason, same
`eventStatus`, same boundary dates, and allow exactly when it allows. -/
theorem C1_link_timing_equals_event_access (cfg : EventConfig) (now : Int) (t : String)
    (hstore : cfg.shareableLink = some t) (ht : t ≠ "") :
    readGate cfg now (some t) = checkEventAccess cfg now := by
  unfold readGate validateShareableLink truthy
  simp [hstore, ht, checkEventAccess]

/-- C1 witness: the ended sample config with its stored token at time 200
(past the end) denies through the link gate exactly as the plain gate does. -/
theorem C1_witness :
    cfgEnded.shareableLink = some "tok123" ∧ ("tok123" : String) ≠ "" ∧
    readGate cfgEnded 200 (some "tok123") = checkEventAccess cfgEnded 200 :=
  ⟨by decide, by decide, C1_link_timing_equals_event_access cfgEnded 200 "tok123" (by decide) (by decide)⟩

/-- C2 counterexample: a request to the /api/files gate with no link token and
no bearer credential, during an active in-window event, is NOT denied: the
gate returns `none` (pass through to the catalogue handler), refuting the
claim that such requests are denied as Unauthenticated. -/
theorem C2_counterexample : readGate cfgActive 50 none = none := by decide

/-- C2 amended: a request carrying neither a link token nor a bearer
credential is subject only to the event-window check (the gate is literally
`checkEventAccess`, which never produces an Unauthenticated denial), and it
passes through to the handler whenever the event is active and now is within
the window. -/
theorem C2_no_credential_means_window_check_only (cfg : EventConfig) (now : Int) :
    readGate cfg now none = checkEventAccess cfg now ∧
    (cfg.isActive = true → cfg.startDate ≤ now → now ≤ cfg.endDate →
      readGate cfg now none = none) := by
  constructor
  · rfl
  · intro hact hs he
    unfold readGate truthy checkEventAccess
    simp [hact, not_lt.mpr hs, not_lt.mpr he]

/-- C2 witness: the active sample config at time 50 (inside the window). -/
theorem C2_witness :
    readGate cfgActive 50 none = checkEventAccess cfgActive 50 ∧
    readGate cfgActive 50 none = none := by
  have h := C2_no_credential_means_window_check_only cfgActive 50
  exact ⟨h.1, h.2 (by decide) (by decide) (by decide)⟩

/-- A sample parseable sidecar record. -/
def recA : FileRecord := ⟨"a.pdf", "application/pdf", 5⟩

/-- C3 counterexample: a catalogue whose directory holds one valid sidecar and
one sidecar that fails to parse makes GET /api/files return the 500 response
(the parse exception aborts the forEach; the valid record is NOT returned),
refuting skip-and-continue. -/
theorem C3_counterexample :
    listFilesHandler [some recA, none] = .error (mkErr 500 "Failed to fetch files") := by
  rfl

/-- C3 amended: whenever at least one sidecar fails to parse, the listing
aborts: GET /api/files responds 500 "Failed to fetch files" and returns no
records at all (the code does not skip unparseable sidecars). -/
theorem C3_bad_sidecar_aborts_listing (sidecars : List (Option FileRecord))
    (h : none ∈ sidecars) :
    listFilesHandler sidecars = .error (mkErr 500 "Failed to fetch files") := by
  suffices hc : collectSidecars sidecars = .error () by
    simp [listFilesHandler, hc]
  induction sidecars with
  | nil => cases h
  | cons hd tl ih =>
    cases hd with
    | none => rfl
    | some r =>
      rcases List.mem_cons.mp h with h1 | h2
      · cases h1
      · rw [collectSidecars, ih h2]
        rfl

/-- C3 amended witness: a catalogue with a single unparseable sidecar. -/
theorem C3_witness :
    listFilesHandler [(none : Option FileRecord)] = .error (mkErr 500 "Failed to fetch files") :=
  C3_bad_sidecar_aborts_listing [none] (List.mem_singleton.mpr rfl)

/-- The prior event configuration for the C4 scenario: window [0, 1]. -/
def cfgPrior : EventConfig := ⟨"default-event", "Default Event", 0, 1, true, none⟩

/-- C4: with prior config startDate=0, endDate=1 (in memory and persisted), an
update setting startDate=2 is rejected with the 400 invalid-range response and
the persisted record is unchanged — but the in-memory config used by every
subsequent access check has ALREADY been mutated to startDate=2, contradicting
the claim that the config is left unchanged. -/
theorem C4_configure_mutates_memory_on_reject :
    (configure ⟨cfgPrior, cfgPrior⟩ ⟨none, some 2, none, none⟩).2 =
      .error (mkErr 400 "Start date must be before end date") ∧
    (configure ⟨cfgPrior, cfgPrior⟩ ⟨none, some 2, none, none⟩).1.persisted = cfgPrior ∧
    (configure ⟨cfgPrior, cfgPrior⟩ ⟨none, some 2, none, none⟩).1.memConfig.startDate = 2 ∧
    (configure ⟨cfgPrior, cfgPrior⟩ ⟨none, some 2, none, none⟩).1.memConfig ≠ cfgPrior := by
  refine ⟨rfl, rfl, rfl, ?_⟩
  decide

/-- C9: a login with an unknown username (lookup miss) and a login with a
known username but failing password verification (hash mismatch) produce the
same external response: the identical 401 "Invalid credentials" error, for
every verification oracle. -/
theorem C9_login_no_username_enumeration
    (verify : String → String → Bool) (u1 p1 u2 p2 : String) (sp : Speaker)
    (hu1 : u1 ≠ "") (hp1 : p1 ≠ "")
    (hmiss : SPEAKERS.find? (fun s => s.username == u1) = none)
    (hu2 : u2 ≠ "") (hp2 : p2 ≠ "")
    (hhit : SPEAKERS.find? (fun s => s.username == u2) = some sp)
    (hbad : verify p2 sp.password = false) :
    login verify u1 p1 = .failure (mkErr 401 "Invalid credentials") ∧
    login verify u2 p2 = .failure (mkErr 401 "Invalid credentials") ∧
    login verify u1 p1 = login verify u2 p2 := by
  unfold login
  simp [hu1, hp1, hu2, hp2, hmiss, hhit, hbad]

/-- C9 witness: unknown user "nobody" and known user "speaker" with an
always-failing verifier get the identical 401 response. -/
theorem C9_witness :
    login (fun _ _ => false) "nobody" "x" = .failure (mkErr 401 "Invalid credentials") ∧
    login (fun _ _ => false) "speaker" "y" = .failure (mkErr 401 "Invalid credentials") ∧
    login (fun _ _ => false) "nobody" "x" = login (fun _ _ => false) "speaker" "y" :=
  C9_login_no_username_enumeration (fun _ _ => false) "nobody" "x" "speaker" "y"
    ⟨"speaker1", "speaker", "$2b$10$8K1p/a0drtIzwqh4Nq8.6.tgdXvKDqRr8p8VGy9Rvx8rQqGhU8jW2",
      "Event Speaker"⟩
    (by decide) (by decide) (by decide) (by decide) (by decide) (by decide) rfl

/-- C10: for a non-empty list of safe filenames, the bulk-download handler
returns exactly one download URL per requested filename; the handler consults
no storage state, so a safe name that matches no stored file still receives a
URL and no NotFound is produced. -/
theorem C10_bulk_download_no_existence_check (link : Option String)
    (filenames : List String) (hne : filenames ≠ [])
    (hsafe : ∀ f ∈ filenames, filenameUnsafe f = false) :
    bulkDownload link filenames =
      .ok (filenames.map fun f =>
        (f, "/api/files/" ++ f ++ "?download=true" ++
          (if truthy link then "&link=" ++ link.getD "" else ""))) := by
  unfold bulkDownload firstUnsafe
  have h1 : filenames.isEmpty = false := by
    simp [List.isEmpty_iff, hne]
  have h2 : filenames.find? filenameUnsafe = none := by
    rw [List.find?_eq_none]
    intro x hx
    simp [hsafe x hx]
  simp [h1, h2]

/-- C10 witness: "ghost.pdf" is safe but stored nowhere; it still gets a URL. -/
theorem C10_witness :
    bulkDownload none ["ghost.pdf"] =
      .ok [("ghost.pdf", "/api/files/ghost.pdf?download=true")] := by
  have h := C10_bulk_download_no_existence_check none ["ghost.pdf"] (by decide)
    (by decide)
  simpa using h

/-- Helper: the pre-range filesystem log never contains a stream open. -/
theorem serveLog_no_stream (filename : String) (b : Bool) (p : String) (s f : Nat) :
    FsAccess.createReadStream p s f ∉ serveLog filename b := by
  cases b <;> simp [serveLog]

/-- C5: for every filename that is empty or contains "..", "/" or "\\", both
the file-serving and the file-info handlers answer 400 Invalid filename and
perform no filesystem operation at all, whatever the storage state. -/
theorem C5_unsafe_filename_rejected_no_fs (st : Storage) (filename : String)
    (download : Bool) (range : Option RangeHeader)
    (h : filenameUnsafe filename = true) :
    serveFile st filename download range =
      (.clientError (mkErr 400 "Invalid filename"), []) ∧
    fileInfo st filename = (.failure (mkErr 400 "Invalid filename"), []) := by
  unfold serveFile fileInfo
  simp [h]

/-- C5 witness: the traversal name "../secret" on an empty storage. -/
theorem C5_witness :
    filenameUnsafe "../secret" = true ∧
    serveFile ⟨[], []⟩ "../secret" false none =
      (.clientError (mkErr 400 "Invalid filename"), []) ∧
    fileInfo ⟨[], []⟩ "../secret" = (.failure (mkErr 400 "Invalid filename"), []) := by
  have h := C5_unsafe_filename_rejected_no_fs ⟨[], []⟩ "../secret" false none (by decide)
  exact ⟨by decide, h.1, h.2⟩

/-- C6: on a stored video file of size S with a parsed range header
(start, optional end defaulting to S-1): when start ≥ S or end ≥ S the
handler answers 416 and opens no stream; otherwise it answers 206 with
Content-Range bytes start-end/S, Content-Length end-start+1, and the byte
slice [start, end] of the stored content. -/
theorem C6_video_range_semantics (st : Storage) (filename : String)
    (content : List Nat) (download : Bool) (start : Nat) (endPart : Option Nat)
    (hsafe : filenameUnsafe filename = false)
    (hbin : lookupAssoc st.binaries filename = some content)
    (hvid : jsStartsWith (resolveContentType filename (metadataOf st filename)) "video/"
      = true) :
    (content.length ≤ start ∨ content.length ≤ endPart.getD (content.length - 1) →
      (serveFile st filename download (some ⟨start, endPart⟩)).1 =
        .clientError (mkErr 416 "Range not satisfiable") ∧
      (∀ p s f, FsAccess.createReadStream p s f ∉
        (serveFile st filename download (some ⟨start, endPart⟩)).2)) ∧
    (start < content.length → endPart.getD (content.length - 1) < content.length →
      (serveFile st filename download (some ⟨start, endPart⟩)).1 =
        .ranged (resolveContentType filename (metadataOf st filename))
          (dispositionFor download (resolveContentType filename (metadataOf st filename))
            (originalNameFor (metadataOf st filename) filename))
          start (endPart.getD (content.length - 1)) content.length
          (((endPart.getD (content.length - 1) : Nat) : Int) - (start : Int) + 1)
          ((content.drop start).take (endPart.getD (content.length - 1) + 1 - start))) := by
  constructor
  · intro h416
    have hres : serveFile st filename download (some ⟨start, endPart⟩) =
        (.clientError (mkErr 416 "Range not satisfiable"),
         serveLog filename (lookupAssoc st.sidecars (filename ++ ".json")).isSome) := by
      unfold serveFile
      simp [hsafe, hbin, hvid, h416]
    rw [hres]
    exact ⟨rfl, fun p s f => serveLog_no_stream filename _ p s f⟩
  · intro h1 h2
    have hn : ¬ (content.length ≤ start ∨
        content.length ≤ endPart.getD (content.length - 1)) := by
      push_neg
      exact ⟨h1, h2⟩
    unfold serveFile
    simp [hsafe, hbin, hvid, hn]

/-- The storage for the C6 witness: one 4-byte video file, no sidecar. -/
def stVid : Storage := ⟨[("v.mp4", [10, 20, 30, 40])], []⟩

/-- C6 witness: range 1-2 on the 4-byte video gives 206 with
Content-Range bytes 1-2/4, Content-Length 2 and the slice [20, 30]; range
5- gives 416. -/
theorem C6_witness :
    (serveFile stVid "v.mp4" false (some ⟨1, some 2⟩)).1 =
      .ranged "video/mp4" "inline; filename=\"v.mp4\"" 1 2 4 2 [20, 30] ∧
    (serveFile stVid "v.mp4" false (some ⟨5, none⟩)).1 =
      .clientError (mkErr 416 "Range not satisfiable") := by
  have h1 := C6_video_range_semantics stVid "v.mp4" [10, 20, 30, 40] false 1 (some 2)
    (by decide) rfl (by decide)
  have h2 := C6_video_range_semantics stVid "v.mp4" [10, 20, 30, 40] false 5 none
    (by decide) rfl (by decide)
  constructor
  · have hr := h1.2 (by decide) (by decide)
    rw [hr]
    decide
  · exact (h2.1 (by decide)).1

/-- C8 counterexample: an upload declaring image/png is rejected with HTTP
status 500 (the fileFilter Error falls through the error middleware to the
generic branch), not the claimed 400; no storage write occurs. -/
theorem C8_counterexample :
    (uploadPipeline "image/png" 1000 [] "1-a.png").1 = [] ∧
    (uploadPipeline "image/png" 1000 [] "1-a.png").2 =
      some (mkErr 500 "Invalid file type. Only PDF, PPT, and video files are allowed.") ∧
    Option.map ApiError.status (uploadPipeline "image/png" 1000 [] "1-a.png").2 =
      some 500 :=
  ⟨rfl, rfl, rfl⟩

/-- C8 amended: every upload whose declared MIME type is outside the
allow-list is rejected before any storage write, with an HTTP 500 response
carrying the fileFilter message (only the multer size-limit error is mapped
to 400 by the error middleware). -/
theorem C8_unsupported_type_500_no_write (mimetype : String) (size : Nat)
    (stored : List String) (storageName : String)
    (h : allowedTypes.contains mimetype = false) :
    uploadPipeline mimetype size stored storageName =
      (stored,
       some (mkErr 500 "Invalid file type. Only PDF, PPT, and video files are allowed.")) := by
  unfold uploadPipeline fileFilter
  rw [h]
  rfl

/-- C8 witness: the image/png upload. -/
theorem C8_witness :
    allowedTypes.contains "image/png" = false ∧
    uploadPipeline "image/png" 1000 [] "1-a.png" =
      ([], some (mkErr 500 "Invalid file type. Only PDF, PPT, and video files are allowed.")) :=
  ⟨by decide, C8_unsupported_type_500_no_write "image/png" 1000 [] "1-a.png" (by decide)⟩

/-- C7: `getStatus` is a pure function of (isActive, startDate, endDate, now)
with priority inactive over not-started over ended over active: inactive
whenever the flag is off (even inside the window), else not-started when now
precedes the start, else ended when now is past the end, else active. -/
theorem C7_status_priority (cfg : EventConfig) (now : Int) :
    (cfg.isActive = false → getStatus cfg now = "inactive") ∧
    (cfg.isActive = true → now < cfg.startDate → getStatus cfg now = "not-started") ∧
    (cfg.isActive = true → cfg.startDate ≤ now → cfg.endDate < now →
      getStatus cfg now = "ended") ∧
    (cfg.isActive = true → cfg.startDate ≤ now → now ≤ cfg.endDate →
      getStatus cfg now = "active") := by
  unfold getStatus
  refine ⟨fun h => by simp [h], fun ha hs => by simp [ha, hs], ?_, ?_⟩
  · intro ha hs he
    simp [ha, not_lt.mpr hs, he]
  · intro ha hs he
    simp [ha, not_lt.mpr hs, not_lt.mpr he]

/-- C7 witness: a config that is inactive with now inside the window reports
"inactive", not "active"; and the sample active config is "active" at 50. -/
theorem C7_witness :
    getStatus ⟨"default-event", "Default Event", 0, 100, false, none⟩ 50 = "inactive" ∧
    getStatus cfgActive 50 = "active" :=
  ⟨(C7_status_priority ⟨"default-event", "Default Event", 0, 100, false, none⟩ 50).1 (by decide),
   (C7_status_priority cfgActive 50).2.2.2 (by decide) (by decide) (by decide)⟩

end Takeaway
